
import Mathlib

set_option maxHeartbeats 1000000

/-!
Verification of the bou job-coordination core.

This file gives a shallow embedding of the coordination layer of the bou
build system: the persistent store (the `snapshot`, `snapshot_history` and
`cache` tables of `contrib.py`), the `SnapshotManager` operations
(`create`, `get`, `adopt_into_running_state`, `complete`,
`schedule_for_release`), the `Cache` operations, the `is_pid_alive`
liveness probe, and the two orchestration drivers `build_handler` and
`release_handler` of `cli.py` together with the pluggy hook pipeline they
drive.  Timestamps are modelled as `Nat`, pids as `Int`, and each SQL
table as a Lean list of rows; a SQL `UPDATE ... WHERE ref_sha = :sha AND
state = :state RETURNING *` is modelled by `casUpdate` (the `ref_sha`
column is the table's PRIMARY KEY, so at most one row can match).
-/

/-- Models `ProcessAction` of `contrib.py`. -/
inductive ProcessAction
  | build
  | release
deriving DecidableEq, Repr

/-- Models `ProcessState` of `contrib.py`. -/
inductive ProcessState
  | scheduled
  | running
  | complete
deriving DecidableEq, Repr

/-- One row of the `snapshot` table (the `Snapshot` named tuple of
`contrib.py`).  Columns inserted as SQL NULL are modelled with `Option`. -/
structure Snapshot where
  ref : String
  ref_sha : String
  action : ProcessAction
  state : ProcessState
  created_at : Nat
  created_by : String
  updated_at : Option Nat
  updated_by : Option String
  pid : Int
  efd : Nat
  etd : Option Nat
deriving DecidableEq, Repr

/-- One row of the `cache` table (the `CacheObject` named tuple). -/
structure CacheObject where
  key : String
  value : String
deriving DecidableEq, Repr

/-- The three record sets created by `Db.init_with_defaults`:
`snapshot`, `snapshot_history` and `cache`.  Note that nothing in the
source ever inserts into `snapshot_history`; the embedding therefore has
no operation writing to that field. -/
structure Db where
  snapshot : List Snapshot
  snapshot_history : List Snapshot
  cache : List CacheObject
deriving DecidableEq, Repr

/-- A freshly connected database with the three empty tables. -/
def emptyDb : Db := { snapshot := [], snapshot_history := [], cache := [] }

/-- The `WHERE NOT EXISTS (SELECT * FROM snapshot WHERE ref_sha = :ref_sha)`
guard of `SnapshotManager.create`. -/
def hasSha (db : Db) (sha : String) : Bool :=
  db.snapshot.any (fun r => r.ref_sha == sha)

/-- The row inserted by `SnapshotManager.create`: columns absent from the
INSERT column list (`updated_at`, `updated_by`, `etd`) are NULL and
`efd` is stamped with the current datetime. -/
def newSnapshot (ref ref_sha : String) (action : ProcessAction) (state : ProcessState)
    (current_datetime : Nat) (user : String) (pid : Int) : Snapshot :=
  { ref := ref, ref_sha := ref_sha, action := action, state := state,
    created_at := current_datetime, created_by := user,
    updated_at := none, updated_by := none,
    pid := pid, efd := current_datetime, etd := none }

/-- `SnapshotManager.create`: `INSERT INTO snapshot ... SELECT ... WHERE NOT
EXISTS (SELECT * FROM snapshot WHERE ref_sha = :ref_sha) RETURNING *`,
fetched with `fetchone`.  Returns the created row, or `none` when a row
for `ref_sha` already existed (in which case nothing is inserted). -/
def SnapshotManager.create (db : Db) (ref ref_sha : String) (action : ProcessAction)
    (state : ProcessState) (current_datetime : Nat) (user : String) (pid : Int) :
    Option Snapshot × Db :=
  if hasSha db ref_sha then (none, db)
  else
    let snap := newSnapshot ref ref_sha action state current_datetime user pid
    (some snap, { db with snapshot := db.snapshot ++ [snap] })

/-- `SnapshotManager.get`: `SELECT * FROM snapshot WHERE ref_sha = :ref_sha`
fetched with `fetchone`. -/
def SnapshotManager.get (db : Db) (ref_sha : String) : Option Snapshot :=
  db.snapshot.find? (fun r => r.ref_sha == ref_sha)

/-- `UPDATE snapshot SET ... WHERE ref_sha = :ref_sha AND state = :state
RETURNING *` fetched with `fetchone`.  `ref_sha` is the table's PRIMARY
KEY, so at most one row can satisfy the WHERE clause; the update rewrites
that row with `f` and returns it, or leaves the table untouched and
returns `none` when no row matches. -/
def casUpdate (f : Snapshot → Snapshot) (sha : String) (st : ProcessState) :
    List Snapshot → Option Snapshot × List Snapshot
  | [] => (none, [])
  | r :: rs =>
    if r.ref_sha = sha ∧ r.state = st then (some (f r), f r :: rs)
    else
      let (res, rs') := casUpdate f sha st rs
      (res, r :: rs')

/-- The SET clause of `SnapshotManager.adopt_into_running_state`. -/
def adoptUpdate (action : ProcessAction) (current_datetime : Nat) (user : String) (pid : Int)
    (r : Snapshot) : Snapshot :=
  { r with action := action, state := ProcessState.running,
           updated_at := some current_datetime, updated_by := some user, pid := pid }

/-- `SnapshotManager.adopt_into_running_state`: compare-and-swap on the
`state` column last observed by the caller (`snapshot.state`). -/
def SnapshotManager.adopt_into_running_state (db : Db) (snapshot : Snapshot)
    (action : ProcessAction) (current_datetime : Nat) (user : String) (pid : Int) :
    Option Snapshot × Db :=
  match casUpdate (adoptUpdate action current_datetime user pid)
      snapshot.ref_sha snapshot.state db.snapshot with
  | (res, table) => (res, { db with snapshot := table })

/-- The SET clause of `SnapshotManager.complete`: the `efd` timestamp
column is the completion stamp written by `complete`. -/
def completeUpdate (current_datetime : Nat) (user : String) (r : Snapshot) : Snapshot :=
  { r with state := ProcessState.complete,
           updated_at := some current_datetime, updated_by := some user,
           efd := current_datetime }

/-- `SnapshotManager.complete`: compare-and-swap to `state = COMPLETE`. -/
def SnapshotManager.complete (db : Db) (snapshot : Snapshot)
    (current_datetime : Nat) (user : String) : Option Snapshot × Db :=
  match casUpdate (completeUpdate current_datetime user)
      snapshot.ref_sha snapshot.state db.snapshot with
  | (res, table) => (res, { db with snapshot := table })

/-- The SET clause of `SnapshotManager.schedule_for_release`. -/
def scheduleUpdate (current_datetime : Nat) (user : String) (r : Snapshot) : Snapshot :=
  { r with action := ProcessAction.release, state := ProcessState.scheduled,
           updated_at := some current_datetime, updated_by := some user,
           efd := current_datetime }

/-- `SnapshotManager.schedule_for_release`: compare-and-swap to
`action = RELEASE, state = SCHEDULED`. -/
def SnapshotManager.schedule_for_release (db : Db) (snapshot : Snapshot)
    (current_datetime : Nat) (user : String) : Option Snapshot × Db :=
  match casUpdate (scheduleUpdate current_datetime user)
      snapshot.ref_sha snapshot.state db.snapshot with
  | (res, table) => (res, { db with snapshot := table })

/-- SQLite errors surfaced by the store; `Cache.set` on a duplicate key
violates the `ucon_cache UNIQUE(key)` constraint. -/
inductive DbError
  | integrityError
deriving DecidableEq, Repr

/-- `Cache.get`: `SELECT * FROM cache WHERE key = :key` with `fetchone`. -/
def Cache.get (db : Db) (key : String) : Option CacheObject :=
  db.cache.find? (fun r => r.key == key)

/-- `Cache.set`: `INSERT INTO cache VALUES (:key, :value) RETURNING *`.
The INSERT has no ON CONFLICT clause, so a row whose key already exists
raises `IntegrityError` (the transaction is rolled back and the table is
unchanged); otherwise the new row is appended and returned. -/
def Cache.set (db : Db) (key value : String) : Except DbError (CacheObject × Db) :=
  if db.cache.any (fun r => r.key == key) then Except.error DbError.integrityError
  else
    Except.ok ({ key := key, value := value },
      { db with cache := db.cache ++ [{ key := key, value := value }] })

/-- The outcome of `os.kill(pid, 0)`: success or an OSError errno. -/
inductive KillOutcome
  | ok
  | err (errno : Nat)
deriving DecidableEq, Repr

/-- Linux `errno.ESRCH`: no such process. -/
def ESRCH : Nat := 3

/-- Linux `errno.EPERM`: operation not permitted. -/
def EPERM : Nat := 1

/-- `is_pid_alive` of `contrib.py`: a non-positive pid is dead; otherwise
probe with the zero signal.  ESRCH means dead, EPERM means alive
(conservatively), success means alive, and any other errno re-raises. -/
def is_pid_alive (kill : Int → KillOutcome) (pid : Int) : Except Nat Bool :=
  if pid ≤ 0 then Except.ok false
  else
    match kill pid with
    | KillOutcome.ok => Except.ok true
    | KillOutcome.err e =>
      if e = ESRCH then Except.ok false
      else if e = EPERM then Except.ok true
      else Except.error e

/-- The arguments of one `SnapshotManager.create` call racing on a fixed
`ref_sha`. -/
structure CreateArgs where
  ref : String
  action : ProcessAction
  state : ProcessState
  now : Nat
  user : String
  pid : Int
deriving DecidableEq, Repr

/-- Apply a sequence of `create` calls for the same `ref_sha` one after
the other (the store serializes conflicting writers) and record each
call's result. -/
def runCreates (sha : String) : Db → List CreateArgs → List (Option Snapshot)
  | _, [] => []
  | db, a :: as =>
    match SnapshotManager.create db a.ref sha a.action a.state a.now a.user a.pid with
    | (r, db') => r :: runCreates sha db' as

/-- Number of successful results among a list of `create` outcomes. -/
def countSome : List (Option Snapshot) → Nat
  | [] => 0
  | some _ :: xs => countSome xs + 1
  | none :: xs => countSome xs

/-- The seven lifecycle points managed by the pluggy registry of
`fpi.py`. -/
inductive StageName
  | configure
  | pre_build
  | build
  | post_build
  | pre_release
  | release
  | post_release
deriving DecidableEq, Repr

/-- One observed provider invocation: which stage and which provider
ran. -/
structure Event where
  stage : StageName
  providerId : Nat
deriving DecidableEq, Repr

/-- A provider registered for a broadcast stage: `fails = some e` means
the provider raises exception `e` when invoked, `none` means it returns
normally. -/
structure Provider where
  id : Nat
  fails : Option String
deriving DecidableEq, Repr

/-- A broadcast stage call: pluggy invokes every registered provider in
order; a provider that raises aborts the call immediately, so later
providers are never invoked. -/
def runBroadcast (s : StageName) : List Provider → List Event × Option String
  | [] => ([], none)
  | p :: ps =>
    match p.fails with
    | some e => ([{ stage := s, providerId := p.id }], some e)
    | none =>
      match runBroadcast s ps with
      | (evs, err) => ({ stage := s, providerId := p.id } :: evs, err)

/-- The shape of a `Config` produced by a configure provider, as far as
the core inspects it: whether the mapping carries a `build_path` key,
whether that value is a `pathlib.Path`, and whether that path exists on
disk (checked by `release_handler`). -/
structure Config where
  hasBuildPath : Bool
  buildPathIsPath : Bool
  buildPathExists : Bool
deriving DecidableEq, Repr

/-- What a configure provider does when invoked: raise, or return a
result (`none` models a Python `None` return, which pluggy skips). -/
inductive ConfOutcome
  | raises (e : String)
  | produces (c : Option Config)
deriving DecidableEq, Repr

/-- A provider registered for the `configure` stage. -/
structure ConfProvider where
  id : Nat
  outcome : ConfOutcome
deriving DecidableEq, Repr

/-- pluggy `firstresult` resolution for `configure`: providers run in
order until one returns a non-None result or raises. -/
def runFirstResult : List ConfProvider → List Event × Except String (Option Config)
  | [] => ([], Except.ok none)
  | p :: ps =>
    match p.outcome with
    | ConfOutcome.raises e =>
      ([{ stage := StageName.configure, providerId := p.id }], Except.error e)
    | ConfOutcome.produces (some c) =>
      ([{ stage := StageName.configure, providerId := p.id }], Except.ok (some c))
    | ConfOutcome.produces none =>
      match runFirstResult ps with
      | (evs, r) => ({ stage := StageName.configure, providerId := p.id } :: evs, r)

/-- The validating wrapper `BuildPlugin.configure` of `fpi.py`: it
intercepts the inner first-result and raises `ConfigError` when
`build_path` is missing or is not a `pathlib.Path` (a `None` inner result
makes the membership test itself raise). -/
def validateConfig (c : Option Config) : Except String Config :=
  match c with
  | none => Except.error "TypeError"
  | some cfg =>
    if cfg.hasBuildPath = false then
      Except.error "ConfigError: build_path is a required key"
    else if cfg.buildPathIsPath = false then
      Except.error "ConfigError: build_path should be of type pathlib.Path"
    else Except.ok cfg

/-- The full `pm.hook.configure(...)` call: first-result resolution
wrapped by the base provider's validation. -/
def runConfigure (ps : List ConfProvider) : List Event × Except String Config :=
  match runFirstResult ps with
  | (evs, Except.error e) => (evs, Except.error e)
  | (evs, Except.ok c) => (evs, validateConfig c)

/-- The provider registry assembled by `pm.register` in both handlers. -/
structure Hooks where
  configure : List ConfProvider
  pre_build : List Provider
  build : List Provider
  post_build : List Provider
  pre_release : List Provider
  release : List Provider
  post_release : List Provider
deriving Repr

/-- Result of running a handler's stage sequence. -/
inductive StagesResult
  | ok (cfg : Config)
  | failed (e : String)
  | configMissingPath
deriving DecidableEq, Repr

/-- The pipeline part of `build_handler`: `configure`, `pre_build`,
`build`, `post_build` in order, each aborting the whole invocation on the
first raising provider. -/
def runBuildStages (hooks : Hooks) : List Event × StagesResult :=
  match runConfigure hooks.configure with
  | (evC, Except.error e) => (evC, StagesResult.failed e)
  | (evC, Except.ok cfg) =>
    match runBroadcast StageName.pre_build hooks.pre_build with
    | (ev1, some e) => (evC ++ ev1, StagesResult.failed e)
    | (ev1, none) =>
      match runBroadcast StageName.build hooks.build with
      | (ev2, some e) => (evC ++ ev1 ++ ev2, StagesResult.failed e)
      | (ev2, none) =>
        match runBroadcast StageName.post_build hooks.post_build with
        | (ev3, some e) => (evC ++ ev1 ++ ev2 ++ ev3, StagesResult.failed e)
        | (ev3, none) => (evC ++ ev1 ++ ev2 ++ ev3, StagesResult.ok cfg)

/-- The pipeline part of `release_handler`: `configure`, then the check
that the configured build path exists on disk (`sys.exit(1)` otherwise),
then `pre_release`, `release`, `post_release`. -/
def runReleaseStages (hooks : Hooks) : List Event × StagesResult :=
  match runConfigure hooks.configure with
  | (evC, Except.error e) => (evC, StagesResult.failed e)
  | (evC, Except.ok cfg) =>
    if cfg.buildPathExists = false then (evC, StagesResult.configMissingPath)
    else
      match runBroadcast StageName.pre_release hooks.pre_release with
      | (ev1, some e) => (evC ++ ev1, StagesResult.failed e)
      | (ev1, none) =>
        match runBroadcast StageName.release hooks.release with
        | (ev2, some e) => (evC ++ ev1 ++ ev2, StagesResult.failed e)
        | (ev2, none) =>
          match runBroadcast StageName.post_release hooks.post_release with
          | (ev3, some e) => (evC ++ ev1 ++ ev2 ++ ev3, StagesResult.failed e)
          | (ev3, none) => (evC ++ ev1 ++ ev2 ++ ev3, StagesResult.ok cfg)

/-- The ambient facts a handler invocation observes: its own pid, the
current time, the behaviour of `os.kill` for each pid, the resolved
`ref_sha`, and the three filesystem pre-checks. -/
structure Env where
  pid : Int
  now : Nat
  kill : Int → KillOutcome
  ref : String
  user : String
  ref_sha : String
  repoExists : Bool
  repoIsBare : Bool
  buildsPathExists : Bool

/-- How a handler invocation terminates: `sys.exit(code)`, a normal
return, a propagated hook exception, or a propagated OSError from the
liveness probe. -/
inductive ExitKind
  | exited (code : Nat)
  | finished
  | hookError (e : String)
  | osError (errno : Nat)
deriving DecidableEq, Repr

/-- The observable outcome of one handler invocation: how it ended, the
final database, the provider invocations it performed, and whether it
called `complete` or `schedule_for_release`. -/
structure Outcome where
  exit : ExitKind
  db : Db
  events : List Event
  completeCalled : Bool
  scheduleCalled : Bool
deriving DecidableEq, Repr

/-- Result of the ownership-establishment phase shared by both handlers. -/
inductive OwnResult
  | aborted (exit : ExitKind) (db : Db)
  | owned (snap : Snapshot) (db : Db)
deriving DecidableEq, Repr

/-- Lines 279-308 of `cli.py` (and the identical 453-483): probe the
snapshot's recorded pid; a live foreign pid aborts quietly, a dead
foreign pid triggers `adopt_into_running_state` (quiet abort when the
CAS loses), and one's own pid proceeds re-entrantly. -/
def ownershipCheck (env : Env) (adoptAction : ProcessAction) (snap : Snapshot) (db : Db) :
    OwnResult :=
  match is_pid_alive env.kill snap.pid with
  | Except.error e => OwnResult.aborted (ExitKind.osError e) db
  | Except.ok alive =>
    if env.pid ≠ snap.pid ∧ alive = true then OwnResult.aborted (ExitKind.exited 0) db
    else if env.pid ≠ snap.pid ∧ alive = false then
      match SnapshotManager.adopt_into_running_state db snap adoptAction env.now env.user env.pid with
      | (none, db1) => OwnResult.aborted (ExitKind.exited 0) db1
      | (some snap1, db1) => OwnResult.owned snap1 db1
    else OwnResult.owned snap db

/-- The pre-checks and claim/adopt phase shared by `build_handler` and
`release_handler`: the filesystem checks exit with status 1, a missing
snapshot is created with `action=BUILD, state=RUNNING` (a lost insert
race aborts quietly), and an existing snapshot goes through
`ownershipCheck`.  Both handlers create with `action=BUILD`; they differ
only in the action passed to adopt. -/
def establishOwnership (env : Env) (adoptAction : ProcessAction) (db : Db) : OwnResult :=
  if env.repoExists = false then OwnResult.aborted (ExitKind.exited 1) db
  else if env.repoIsBare = false then OwnResult.aborted (ExitKind.exited 1) db
  else if env.buildsPathExists = false then OwnResult.aborted (ExitKind.exited 1) db
  else
    match SnapshotManager.get db env.ref_sha with
    | some snap => ownershipCheck env adoptAction snap db
    | none =>
      match SnapshotManager.create db env.ref env.ref_sha ProcessAction.build
          ProcessState.running env.now env.user env.pid with
      | (none, db1) => OwnResult.aborted (ExitKind.exited 0) db1
      | (some snap, db1) => ownershipCheck env adoptAction snap db1

/-- `build_handler` of `cli.py`: establish ownership, abort quietly when
the owned snapshot's action is not BUILD, run the build stages (a raising
provider propagates and nothing after it runs), then either `complete`
(default, then `sys.exit(0)`) or `schedule_for_release`. -/
def build_handler (env : Env) (schedule_release : Bool) (hooks : Hooks) (db : Db) : Outcome :=
  match establishOwnership env ProcessAction.build db with
  | OwnResult.aborted ex db1 =>
    { exit := ex, db := db1, events := [], completeCalled := false, scheduleCalled := false }
  | OwnResult.owned snap db1 =>
    if snap.action ≠ ProcessAction.build then
      { exit := ExitKind.exited 0, db := db1, events := [],
        completeCalled := false, scheduleCalled := false }
    else
      match runBuildStages hooks with
      | (evs, StagesResult.failed e) =>
        { exit := ExitKind.hookError e, db := db1, events := evs,
          completeCalled := false, scheduleCalled := false }
      | (evs, StagesResult.configMissingPath) =>
        { exit := ExitKind.exited 1, db := db1, events := evs,
          completeCalled := false, scheduleCalled := false }
      | (evs, StagesResult.ok _) =>
        if schedule_release = false then
          match SnapshotManager.complete db1 snap env.now env.user with
          | (_, db2) =>
            { exit := ExitKind.exited 0, db := db2, events := evs,
              completeCalled := true, scheduleCalled := false }
        else
          match SnapshotManager.schedule_for_release db1 snap env.now env.user with
          | (_, db2) =>
            { exit := ExitKind.finished, db := db2, events := evs,
              completeCalled := false, scheduleCalled := true }

/-- `release_handler` of `cli.py`: establish ownership (adopting with
`action=RELEASE`), abort quietly when the owned snapshot's action is not
RELEASE, run the release stages, then `complete`. -/
def release_handler (env : Env) (hooks : Hooks) (db : Db) : Outcome :=
  match establishOwnership env ProcessAction.release db with
  | OwnResult.aborted ex db1 =>
    { exit := ex, db := db1, events := [], completeCalled := false, scheduleCalled := false }
  | OwnResult.owned snap db1 =>
    if snap.action ≠ ProcessAction.release then
      { exit := ExitKind.exited 0, db := db1, events := [],
        completeCalled := false, scheduleCalled := false }
    else
      match runReleaseStages hooks with
      | (evs, StagesResult.failed e) =>
        { exit := ExitKind.hookError e, db := db1, events := evs,
          completeCalled := false, scheduleCalled := false }
      | (evs, StagesResult.configMissingPath) =>
        { exit := ExitKind.exited 1, db := db1, events := evs,
          completeCalled := false, scheduleCalled := false }
      | (evs, StagesResult.ok _) =>
        match SnapshotManager.complete db1 snap env.now env.user with
        | (_, db2) =>
          { exit := ExitKind.finished, db := db2, events := evs,
            completeCalled := true, scheduleCalled := false }

/-- Sample claim arguments used to instantiate the C1 theorem. -/
def argA : CreateArgs :=
  { ref := "main", action := ProcessAction.build, state := ProcessState.running,
    now := 0, user := "alice", pid := 100 }

/-- A sample row used in CAS witnesses. -/
def rowA : Snapshot :=
  { ref := "main", ref_sha := "abc123", action := ProcessAction.build,
    state := ProcessState.running, created_at := 0, created_by := "alice",
    updated_at := none, updated_by := none, pid := 100, efd := 0, etd := none }

/-- A one-row database used in CAS witnesses. -/
def dbOne : Db := { snapshot := [rowA], snapshot_history := [], cache := [] }

/-- A kill oracle for witnesses: pid 3 does not exist, pid 4 is owned by
another principal, pid 5 yields an unexpected errno, and every other pid
responds to the zero signal. -/
def killA : Int → KillOutcome := fun pid =>
  if pid = 3 then KillOutcome.err ESRCH
  else if pid = 4 then KillOutcome.err EPERM
  else if pid = 5 then KillOutcome.err 22
  else KillOutcome.ok

/-- A sample handler environment: pid 7, every probed pid responds to the
zero signal, all filesystem pre-checks pass. -/
def envA : Env :=
  { pid := 7, now := 3, kill := fun _ => KillOutcome.ok, ref := "main", user := "alice",
    ref_sha := "abc123", repoExists := true, repoIsBare := true, buildsPathExists := true }

/-- The sample row re-owned by the sample environment's own pid. -/
def rowOwn : Snapshot := { rowA with pid := 7 }

/-- A database holding only the re-entrantly owned sample row. -/
def dbOwn : Db := { snapshot := [rowOwn], snapshot_history := [], cache := [] }

/-- A well-formed configuration produced by the sample configure
provider. -/
def cfgOk : Config :=
  { hasBuildPath := true, buildPathIsPath := true, buildPathExists := true }

/-- A hook registry whose second broadcast stage has a failing
provider. -/
def hooksFail : Hooks :=
  { configure := [{ id := 0, outcome := ConfOutcome.produces (some cfgOk) }],
    pre_build := [{ id := 1, fails := none }],
    build := [{ id := 2, fails := some "boom" }],
    post_build := [{ id := 3, fails := none }],
    pre_release := [], release := [], post_release := [] }

/-- The sample row owned (re-entrantly) by pid 7 but claimed for a
RELEASE action. -/
def rowRel : Snapshot := { rowOwn with action := ProcessAction.release }

/-- A database holding only the RELEASE-owned sample row. -/
def dbRel : Db := { snapshot := [rowRel], snapshot_history := [], cache := [] }

/-- A `create` call whose NOT EXISTS guard finds an existing row inserts
nothing and returns no row. -/
theorem create_none_of_hasSha (db : Db) (ref sha : String) (action : ProcessAction)
    (st : ProcessState) (now : Nat) (user : String) (pid : Int)
    (h : hasSha db sha = true) :
    SnapshotManager.create db ref sha action st now user pid = (none, db) := by
  simp [SnapshotManager.create, h]

/-- Once a row for `sha` exists, every later `create` for the same `sha`
fails, so a whole sequence of attempts yields zero successes. -/
theorem runCreates_countSome_zero (sha : String) :
    ∀ (db : Db), hasSha db sha = true → ∀ (as : List CreateArgs),
      countSome (runCreates sha db as) = 0 := by
  intro db h as
  induction as generalizing db with
  | nil => simp [runCreates, countSome]
  | cons a as ih =>
    rw [runCreates, create_none_of_hasSha db a.ref sha a.action a.state a.now a.user a.pid h]
    simpa [countSome] using ih db h

/-- Claim C1: a `claim` (`SnapshotManager.create`) with a `ref_sha`
inserts a new snapshot row with the supplied ref, action, state, pid and
audit fields if and only if no row exists for that `ref_sha`; on success
the created snapshot is returned, and when a row already exists the call
returns `none` and leaves the table unchanged, so among any sequence of
claim attempts for the same `ref_sha` exactly one succeeds. -/
theorem C1_claim_exactly_one_insert (db : Db) (ref sha : String) (action : ProcessAction)
    (st : ProcessState) (now : Nat) (user : String) (pid : Int)
    (attempts : List CreateArgs) :
    ((SnapshotManager.create db ref sha action st now user pid).1.isSome ↔
        hasSha db sha = false) ∧
    (hasSha db sha = false →
      SnapshotManager.create db ref sha action st now user pid =
        (some (newSnapshot ref sha action st now user pid),
          { db with snapshot := db.snapshot ++ [newSnapshot ref sha action st now user pid] })) ∧
    (hasSha db sha = true →
      SnapshotManager.create db ref sha action st now user pid = (none, db)) ∧
    (hasSha db sha = false → attempts ≠ [] →
      countSome (runCreates sha db attempts) = 1) := by
  refine ⟨?_, ?_, ?_, ?_⟩
  · cases h : hasSha db sha <;> simp [SnapshotManager.create, h]
  · intro h
    simp [SnapshotManager.create, h]
  · intro h
    simp [SnapshotManager.create, h]
  · intro h hne
    cases attempts with
    | nil => exact absurd rfl hne
    | cons a as =>
      have h2 : hasSha
          { db with snapshot := db.snapshot ++
              [newSnapshot a.ref sha a.action a.state a.now a.user a.pid] } sha = true := by
        simp [hasSha, newSnapshot]
      rw [runCreates]
      simp only [SnapshotManager.create, h, if_false, Bool.false_eq_true]
      simp [countSome, runCreates_countSome_zero sha _ h2 as]

/-- Witness for C1: starting from an empty store, two racing claim
attempts for the same `ref_sha` produce exactly one success. -/
theorem C1_claim_exactly_one_insert_witness :
    countSome (runCreates "abc123" emptyDb [argA, argA]) = 1 :=
  (C1_claim_exactly_one_insert emptyDb "main" "abc123" ProcessAction.build
      ProcessState.running 0 "alice" 100 [argA, argA]).2.2.2 (by rfl) (by simp)

/-- A CAS update whose WHERE clause matches no row leaves the table
untouched and returns no row. -/
theorem casUpdate_none (f : Snapshot → Snapshot) (sha : String) (st : ProcessState) :
    ∀ (l : List Snapshot), (∀ r ∈ l, ¬(r.ref_sha = sha ∧ r.state = st)) →
      casUpdate f sha st l = (none, l) := by
  intro l
  induction l with
  | nil => intro _; rfl
  | cons r rs ih =>
    intro h
    have hr : ¬(r.ref_sha = sha ∧ r.state = st) := h r (by simp)
    have hrec := ih (fun x hx => h x (by simp [hx]))
    simp [casUpdate, hr, hrec]

/-- A CAS update whose WHERE clause matches the (unique) row `row`
rewrites exactly that row and returns the rewritten row. -/
theorem casUpdate_found (f : Snapshot → Snapshot) (sha : String) (st : ProcessState)
    (row : Snapshot) (h2 : row.ref_sha = sha) (h3 : row.state = st) :
    ∀ (l1 l2 : List Snapshot), (∀ r ∈ l1, ¬(r.ref_sha = sha ∧ r.state = st)) →
      casUpdate f sha st (l1 ++ row :: l2) = (some (f row), l1 ++ f row :: l2) := by
  intro l1
  induction l1 with
  | nil => intro l2 _; simp [casUpdate, h2, h3]
  | cons a l1 ih =>
    intro l2 h
    have ha : ¬(a.ref_sha = sha ∧ a.state = st) := h a (by simp)
    have hrec := ih l2 (fun x hx => h x (by simp [hx]))
    simp [casUpdate, ha, hrec]

/-- Claim C2: `adopt_into_running_state` is a compare-and-swap.  When the
stored row for `s.ref_sha` still has the state the caller last observed,
that row is rewritten in one step to the given action, `state = RUNNING`,
`pid`, and refreshed `updated_at`/`updated_by` (all other columns are
preserved) and the rewritten snapshot is returned; otherwise the call
returns `none` and the table is left completely unchanged. -/
theorem C2_adopt_compare_and_swap (db : Db) (s : Snapshot) (action : ProcessAction)
    (now : Nat) (user : String) (pid : Int) (l1 l2 : List Snapshot) (row : Snapshot)
    (hsplit : db.snapshot = l1 ++ row :: l2)
    (hsha : row.ref_sha = s.ref_sha)
    (hothers : ∀ r, r ∈ l1 ∨ r ∈ l2 → r.ref_sha ≠ s.ref_sha) :
    (row.state = s.state →
      SnapshotManager.adopt_into_running_state db s action now user pid =
        (some (adoptUpdate action now user pid row),
          { db with snapshot := l1 ++ adoptUpdate action now user pid row :: l2 }) ∧
      (adoptUpdate action now user pid row).action = action ∧
      (adoptUpdate action now user pid row).state = ProcessState.running ∧
      (adoptUpdate action now user pid row).pid = pid ∧
      (adoptUpdate action now user pid row).updated_at = some now ∧
      (adoptUpdate action now user pid row).updated_by = some user ∧
      (adoptUpdate action now user pid row).ref = row.ref ∧
      (adoptUpdate action now user pid row).ref_sha = row.ref_sha ∧
      (adoptUpdate action now user pid row).created_at = row.created_at ∧
      (adoptUpdate action now user pid row).created_by = row.created_by ∧
      (adoptUpdate action now user pid row).efd = row.efd ∧
      (adoptUpdate action now user pid row).etd = row.etd) ∧
    (row.state ≠ s.state →
      SnapshotManager.adopt_into_running_state db s action now user pid = (none, db)) := by
  constructor
  · intro hst
    refine ⟨?_, by simp [adoptUpdate]⟩
    unfold SnapshotManager.adopt_into_running_state
    rw [hsplit, casUpdate_found _ s.ref_sha s.state row hsha hst l1 l2
      (fun r hr => fun hc => hothers r (Or.inl hr) hc.1)]
  · intro hst
    unfold SnapshotManager.adopt_into_running_state
    rw [hsplit, casUpdate_none]
    · simp [← hsplit]
    · intro r hr
      rcases List.mem_append.mp hr with h1 | h1
      · exact fun hc => hothers r (Or.inl h1) hc.1
      · rcases List.mem_cons.mp h1 with h2 | h2
        · subst h2; exact fun hc => hst (hc.2 ▸ rfl)
        · exact fun hc => hothers r (Or.inr h2) hc.1

/-- Witness for C2: adopting the sample RUNNING row succeeds and rewrites
it to the adopting process. -/
theorem C2_adopt_compare_and_swap_witness :
    SnapshotManager.adopt_into_running_state dbOne rowA ProcessAction.build 5 "bob" 200 =
      (some (adoptUpdate ProcessAction.build 5 "bob" 200 rowA),
        { dbOne with snapshot := [adoptUpdate ProcessAction.build 5 "bob" 200 rowA] }) :=
  ((C2_adopt_compare_and_swap dbOne rowA ProcessAction.build 5 "bob" 200 [] [] rowA
      rfl rfl (by intro r hr; rcases hr with h | h <;> simp at h)).1 rfl).1

/-- Claim C3: `complete` is a compare-and-swap.  When the stored row for
`snapshot.ref_sha` still has the state the caller observed, the row's
state becomes COMPLETE and its completion timestamp column `efd` is
stamped with the current datetime (all other identifying columns are
preserved); when the state changed underneath, the call returns `none`
and the table is unchanged. -/
theorem C3_complete_compare_and_swap (db : Db) (s : Snapshot) (now : Nat) (user : String)
    (l1 l2 : List Snapshot) (row : Snapshot)
    (hsplit : db.snapshot = l1 ++ row :: l2)
    (hsha : row.ref_sha = s.ref_sha)
    (hothers : ∀ r, r ∈ l1 ∨ r ∈ l2 → r.ref_sha ≠ s.ref_sha) :
    (row.state = s.state →
      SnapshotManager.complete db s now user =
        (some (completeUpdate now user row),
          { db with snapshot := l1 ++ completeUpdate now user row :: l2 }) ∧
      (completeUpdate now user row).state = ProcessState.complete ∧
      (completeUpdate now user row).efd = now ∧
      (completeUpdate now user row).updated_at = some now ∧
      (completeUpdate now user row).updated_by = some user ∧
      (completeUpdate now user row).ref = row.ref ∧
      (completeUpdate now user row).ref_sha = row.ref_sha ∧
      (completeUpdate now user row).action = row.action ∧
      (completeUpdate now user row).created_at = row.created_at ∧
      (completeUpdate now user row).created_by = row.created_by ∧
      (completeUpdate now user row).pid = row.pid ∧
      (completeUpdate now user row).etd = row.etd) ∧
    (row.state ≠ s.state →
      SnapshotManager.complete db s now user = (none, db)) := by
  constructor
  · intro hst
    refine ⟨?_, by simp [completeUpdate]⟩
    unfold SnapshotManager.complete
    rw [hsplit, casUpdate_found _ s.ref_sha s.state row hsha hst l1 l2
      (fun r hr => fun hc => hothers r (Or.inl hr) hc.1)]
  · intro hst
    unfold SnapshotManager.complete
    rw [hsplit, casUpdate_none]
    · simp [← hsplit]
    · intro r hr
      rcases List.mem_append.mp hr with h1 | h1
      · exact fun hc => hothers r (Or.inl h1) hc.1
      · rcases List.mem_cons.mp h1 with h2 | h2
        · subst h2; exact fun hc => hst (hc.2 ▸ rfl)
        · exact fun hc => hothers r (Or.inr h2) hc.1

/-- Witness for C3: completing the sample RUNNING row stamps COMPLETE and
the completion timestamp. -/
theorem C3_complete_compare_and_swap_witness :
    SnapshotManager.complete dbOne rowA 9 "alice" =
      (some (completeUpdate 9 "alice" rowA),
        { dbOne with snapshot := [completeUpdate 9 "alice" rowA] }) :=
  ((C3_complete_compare_and_swap dbOne rowA 9 "alice" [] [] rowA
      rfl rfl (by intro r hr; rcases hr with h | h <;> simp at h)).1 rfl).1

/-- Counterexample for C5: a successful mutation (the claim insert) does
not append any row to the `snapshot_history` table — no code path of the
repository ever writes that table, so it stays empty. -/
theorem C5_counterexample_no_history_append :
    (SnapshotManager.create emptyDb "main" "abc123" ProcessAction.build
        ProcessState.running 0 "alice" 100).1.isSome = true ∧
    (SnapshotManager.create emptyDb "main" "abc123" ProcessAction.build
        ProcessState.running 0 "alice" 100).2.snapshot_history = [] := by
  constructor <;> rfl

/-- Claim C5 (amended): the schema defines an append-only
`snapshot_history` table of the same shape as `snapshot`, but no snapshot
mutation (create, adopt, complete, schedule-for-release) writes to it;
every operation leaves `snapshot_history` exactly as it was. -/
theorem C5_history_never_written (db : Db) (ref sha : String) (action : ProcessAction)
    (st : ProcessState) (now : Nat) (user : String) (pid : Int) (s : Snapshot) :
    (SnapshotManager.create db ref sha action st now user pid).2.snapshot_history =
      db.snapshot_history ∧
    (SnapshotManager.adopt_into_running_state db s action now user pid).2.snapshot_history =
      db.snapshot_history ∧
    (SnapshotManager.complete db s now user).2.snapshot_history = db.snapshot_history ∧
    (SnapshotManager.schedule_for_release db s now user).2.snapshot_history =
      db.snapshot_history := by
  refine ⟨?_, ?_, ?_, ?_⟩
  · by_cases h : hasSha db sha = true <;> simp [SnapshotManager.create, h]
  · rcases h : casUpdate (adoptUpdate action now user pid) s.ref_sha s.state db.snapshot
      with ⟨res, table⟩
    simp [SnapshotManager.adopt_into_running_state, h]
  · rcases h : casUpdate (completeUpdate now user) s.ref_sha s.state db.snapshot
      with ⟨res, table⟩
    simp [SnapshotManager.complete, h]
  · rcases h : casUpdate (scheduleUpdate now user) s.ref_sha s.state db.snapshot
      with ⟨res, table⟩
    simp [SnapshotManager.schedule_for_release, h]

/-- Claim C6: the liveness probe returns dead for a non-positive pid,
dead when the zero-signal probe fails with ESRCH, alive when the probe
succeeds, alive when it fails with EPERM, and re-raises any other OS
error to the caller. -/
theorem C6_is_pid_alive_classification (kill : Int → KillOutcome) (pid : Int) :
    (pid ≤ 0 → is_pid_alive kill pid = Except.ok false) ∧
    (0 < pid → kill pid = KillOutcome.ok → is_pid_alive kill pid = Except.ok true) ∧
    (0 < pid → kill pid = KillOutcome.err ESRCH → is_pid_alive kill pid = Except.ok false) ∧
    (0 < pid → kill pid = KillOutcome.err EPERM → is_pid_alive kill pid = Except.ok true) ∧
    (∀ e, 0 < pid → kill pid = KillOutcome.err e → e ≠ ESRCH → e ≠ EPERM →
      is_pid_alive kill pid = Except.error e) := by
  have hpos : 0 < pid → ¬pid ≤ 0 := fun h => by omega
  refine ⟨?_, ?_, ?_, ?_, ?_⟩
  · intro h; simp [is_pid_alive, h]
  · intro h hk; simp [is_pid_alive, hpos h, hk]
  · intro h hk; simp [is_pid_alive, hpos h, hk, ESRCH]
  · intro h hk; simp [is_pid_alive, hpos h, hk, ESRCH, EPERM]
  · intro e h hk h1 h2; simp [is_pid_alive, hpos h, hk, h1, h2]

/-- Witness for C6: each branch of the classification evaluated on the
sample kill oracle. -/
theorem C6_is_pid_alive_classification_witness :
    is_pid_alive killA (-1) = Except.ok false ∧
    is_pid_alive killA 7 = Except.ok true ∧
    is_pid_alive killA 3 = Except.ok false ∧
    is_pid_alive killA 4 = Except.ok true ∧
    is_pid_alive killA 5 = Except.error 22 :=
  ⟨(C6_is_pid_alive_classification killA (-1)).1 (by omega),
   (C6_is_pid_alive_classification killA 7).2.1 (by omega) (by rfl),
   (C6_is_pid_alive_classification killA 3).2.2.1 (by omega) (by rfl),
   (C6_is_pid_alive_classification killA 4).2.2.2.1 (by omega) (by rfl),
   (C6_is_pid_alive_classification killA 5).2.2.2.2 22 (by omega) (by rfl)
     (by decide) (by decide)⟩

/-- Skipping a prefix in which no element satisfies the predicate does
not change the result of `find?`. -/
theorem find?_append_of_none {α : Type} (p : α → Bool) (l1 l2 : List α)
    (h : ∀ x ∈ l1, p x = false) : (l1 ++ l2).find? p = l2.find? p := by
  induction l1 with
  | nil => rfl
  | cons a l1 ih =>
    have ha := h a (by simp)
    simp only [List.cons_append, List.find?_cons, ha]
    exact ih (fun x hx => h x (by simp [hx]))

/-- Counterexample for C9: setting a key that already holds a value does
not overwrite it — the plain INSERT violates the UNIQUE(key) constraint
and fails with IntegrityError, leaving the old value in place. -/
theorem C9_counterexample_set_existing_key_fails :
    Cache.set { emptyDb with cache := [{ key := "k", value := "v1" }] } "k" "v2" =
      Except.error DbError.integrityError := by rfl

/-- Claim C9 (amended): for a key not yet present, `Cache.set(k, v)`
inserts the pair and a following `Cache.get(k)` returns a cache object
holding `v`; setting a key that already holds a value fails with a
uniqueness-constraint error (it does not overwrite); and no cache
operation ever evicts an entry — every existing entry survives a
successful `set`. -/
theorem C9_cache_set_insert_only (db : Db) (k v : String) :
    (db.cache.any (fun r => r.key == k) = false →
      Cache.set db k v =
        Except.ok ({ key := k, value := v },
          { db with cache := db.cache ++ [{ key := k, value := v }] }) ∧
      Cache.get { db with cache := db.cache ++ [{ key := k, value := v }] } k =
        some { key := k, value := v }) ∧
    (db.cache.any (fun r => r.key == k) = true →
      Cache.set db k v = Except.error DbError.integrityError) ∧
    (∀ e ∈ db.cache, ∀ obj db', Cache.set db k v = Except.ok (obj, db') → e ∈ db'.cache) := by
  refine ⟨?_, ?_, ?_⟩
  · intro h
    refine ⟨by simp [Cache.set, h], ?_⟩
    have hnone : ∀ x ∈ db.cache, (x.key == k) = false := by
      intro x hx
      rcases hb : x.key == k with _ | _
      · rfl
      · have hc : db.cache.any (fun r => r.key == k) = true :=
          List.any_eq_true.mpr ⟨x, hx, hb⟩
        exact absurd hc (by simp [h])
    simp [Cache.get, find?_append_of_none _ db.cache _ hnone, List.find?_cons]
  · intro h
    simp [Cache.set, h]
  · intro e he obj db' h
    by_cases hk : db.cache.any (fun r => r.key == k) = true
    · simp [Cache.set, hk] at h
    · simp [Cache.set, hk] at h
      rw [← h.2]
      simp [he]

/-- Witness for C9: on an empty cache, set then get returns the stored
value, and a second set of the same key fails with IntegrityError. -/
theorem C9_cache_set_insert_only_witness :
    Cache.set emptyDb "k" "v" =
      Except.ok ({ key := "k", value := "v" },
        { emptyDb with cache := [{ key := "k", value := "v" }] }) ∧
    Cache.get { emptyDb with cache := [{ key := "k", value := "v" }] } "k" =
      some { key := "k", value := "v" } ∧
    Cache.set { emptyDb with cache := [{ key := "k", value := "v" }] } "k" "v2" =
      Except.error DbError.integrityError :=
  ⟨((C9_cache_set_insert_only emptyDb "k" "v").1 (by rfl)).1,
   ((C9_cache_set_insert_only emptyDb "k" "v").1 (by rfl)).2,
   (C9_cache_set_insert_only { emptyDb with cache := [{ key := "k", value := "v" }] }
      "k" "v2").2.1 (by rfl)⟩

/-- A missing row under `get` means the NOT EXISTS guard of `create` also
finds nothing. -/
theorem hasSha_false_of_get_none (db : Db) (sha : String)
    (h : SnapshotManager.get db sha = none) : hasSha db sha = false := by
  simp only [SnapshotManager.get, List.find?_eq_none] at h
  simp only [hasSha, List.any_eq_false]
  exact fun x hx => by simpa using h x hx

/-- A successful `create` returns exactly the freshly built row and the
table with that row appended. -/
theorem create_eq_some (db : Db) (ref sha : String) (action : ProcessAction)
    (st : ProcessState) (now : Nat) (user : String) (pid : Int) (s0 : Snapshot) (db1 : Db)
    (h : SnapshotManager.create db ref sha action st now user pid = (some s0, db1)) :
    s0 = newSnapshot ref sha action st now user pid ∧
    db1 = { db with snapshot := db.snapshot ++ [s0] } := by
  by_cases hs : hasSha db sha = true
  · simp [SnapshotManager.create, hs] at h
  · simp only [SnapshotManager.create, hs] at h
    rw [if_neg (by simp [hs])] at h
    rw [Prod.mk.injEq] at h
    obtain ⟨h1, h2⟩ := h
    rw [Option.some.injEq] at h1
    subst h1
    exact ⟨rfl, h2.symm⟩

/-- A CAS update that returns a row put that row into the table, and the
row carries the key of the WHERE clause. -/
theorem casUpdate_some_mem (f : Snapshot → Snapshot) (sha : String) (st : ProcessState)
    (hf : ∀ r, (f r).ref_sha = r.ref_sha) :
    ∀ (l : List Snapshot) (res : Snapshot) (l' : List Snapshot),
      casUpdate f sha st l = (some res, l') → res ∈ l' ∧ res.ref_sha = sha := by
  intro l
  induction l with
  | nil => intro res l' h; simp [casUpdate] at h
  | cons r rs ih =>
    intro res l' h
    by_cases hc : r.ref_sha = sha ∧ r.state = st
    · rw [casUpdate, if_pos hc] at h
      rw [Prod.mk.injEq] at h
      obtain ⟨h1, h2⟩ := h
      rw [Option.some.injEq] at h1
      subst h1
      exact ⟨h2 ▸ List.mem_cons_self .., (hf r).trans hc.1⟩
    · rw [casUpdate, if_neg hc] at h
      rcases hr : casUpdate f sha st rs with ⟨res', rs'⟩
      rw [hr] at h
      rw [Prod.mk.injEq] at h
      obtain ⟨h1, h2⟩ := h
      obtain ⟨hm, hsha⟩ := ih res rs' (h1 ▸ hr)
      exact ⟨h2 ▸ List.mem_cons_of_mem r hm, hsha⟩

/-- When the pid check concludes `owned`, the owned snapshot is a row of
the resulting table and carries the probed snapshot's `ref_sha`. -/
theorem ownershipCheck_owned (env : Env) (a : ProcessAction) (snap0 : Snapshot) (db : Db)
    (snap : Snapshot) (db1 : Db)
    (hmem : snap0 ∈ db.snapshot)
    (h : ownershipCheck env a snap0 db = OwnResult.owned snap db1) :
    snap ∈ db1.snapshot ∧ snap.ref_sha = snap0.ref_sha := by
  unfold ownershipCheck at h
  split at h
  · exact absurd h (by simp)
  · split at h
    · exact absurd h (by simp)
    · split at h
      · split at h
        · exact absurd h (by simp)
        · rename_i snap1 db1' hA
          injection h with h3 h4
          subst h3
          subst h4
          unfold SnapshotManager.adopt_into_running_state at hA
          rcases hC : casUpdate (adoptUpdate a env.now env.user env.pid)
              snap0.ref_sha snap0.state db.snapshot with ⟨resC, tableC⟩
          rw [hC] at hA
          rw [Prod.mk.injEq] at hA
          obtain ⟨hA1, hA2⟩ := hA
          obtain ⟨hm, hsha⟩ := casUpdate_some_mem (adoptUpdate a env.now env.user env.pid)
            snap0.ref_sha snap0.state (fun r => rfl) db.snapshot snap1 tableC
            (by rw [hC, hA1])
          refine ⟨?_, hsha⟩
          rw [← hA2]
          exact hm
      · rw [OwnResult.owned.injEq] at h
        obtain ⟨rfl, rfl⟩ := h
        exact ⟨hmem, rfl⟩

/-- When ownership establishment concludes `owned`, the owned snapshot is
a row of the resulting table and carries the resolved `ref_sha`. -/
theorem establishOwnership_owned (env : Env) (a : ProcessAction) (db : Db)
    (snap : Snapshot) (db1 : Db)
    (h : establishOwnership env a db = OwnResult.owned snap db1) :
    snap ∈ db1.snapshot ∧ snap.ref_sha = env.ref_sha := by
  unfold establishOwnership at h
  split at h
  · exact absurd h (by simp)
  · split at h
    · exact absurd h (by simp)
    · split at h
      · exact absurd h (by simp)
      · split at h
        · rename_i snap0 hg
          have hg' : db.snapshot.find? (fun r => r.ref_sha == env.ref_sha) = some snap0 := hg
          have hmem : snap0 ∈ db.snapshot := List.mem_of_find?_eq_some hg'
          have hsha0 : snap0.ref_sha = env.ref_sha := by
            have := List.find?_some hg'
            simpa using this
          obtain ⟨hm, hsha⟩ := ownershipCheck_owned env a snap0 db snap db1 hmem h
          exact ⟨hm, hsha.trans hsha0⟩
        · split at h
          · exact absurd h (by simp)
          · rename_i hg snap0 dbc hc
            obtain ⟨hs0, hdb⟩ := create_eq_some db env.ref env.ref_sha ProcessAction.build
              ProcessState.running env.now env.user env.pid snap0 dbc hc
            have hmem : snap0 ∈ dbc.snapshot := by rw [hdb]; simp
            obtain ⟨hm, hsha⟩ := ownershipCheck_owned env a snap0 dbc snap db1 hmem h
            refine ⟨hm, hsha.trans ?_⟩
            rw [hs0]
            rfl

/-- Claim C4: if any pipeline stage provider raises during a build or
release run, the handler propagates that error, no later stage or
provider in that run executes (the broadcast runner stops at the first
failing provider), neither `complete` nor `schedule_for_release` is
called, the database is exactly as ownership establishment left it, and
the snapshot row — RUNNING when the pipeline started — stays RUNNING and
is never marked COMPLETE by the failed run. -/
theorem C4_pipeline_failure_all_or_nothing :
    (∀ (env : Env) (sr : Bool) (hooks : Hooks) (db : Db) (snap : Snapshot) (db1 : Db)
        (e : String),
      establishOwnership env ProcessAction.build db = OwnResult.owned snap db1 →
      snap.action = ProcessAction.build →
      (runBuildStages hooks).2 = StagesResult.failed e →
      build_handler env sr hooks db =
        { exit := ExitKind.hookError e, db := db1, events := (runBuildStages hooks).1,
          completeCalled := false, scheduleCalled := false } ∧
      snap ∈ db1.snapshot ∧ snap.ref_sha = env.ref_sha ∧
      (snap.state = ProcessState.running →
        ∃ r ∈ (build_handler env sr hooks db).db.snapshot,
          r.ref_sha = env.ref_sha ∧ r.state = ProcessState.running)) ∧
    (∀ (env : Env) (hooks : Hooks) (db : Db) (snap : Snapshot) (db1 : Db) (e : String),
      establishOwnership env ProcessAction.release db = OwnResult.owned snap db1 →
      snap.action = ProcessAction.release →
      (runReleaseStages hooks).2 = StagesResult.failed e →
      release_handler env hooks db =
        { exit := ExitKind.hookError e, db := db1, events := (runReleaseStages hooks).1,
          completeCalled := false, scheduleCalled := false } ∧
      snap ∈ db1.snapshot ∧ snap.ref_sha = env.ref_sha ∧
      (snap.state = ProcessState.running →
        ∃ r ∈ (release_handler env hooks db).db.snapshot,
          r.ref_sha = env.ref_sha ∧ r.state = ProcessState.running)) ∧
    (∀ (s : StageName) (l1 : List Provider) (p : Provider) (l2 : List Provider) (e : String),
      (∀ q ∈ l1, q.fails = none) → p.fails = some e →
      runBroadcast s (l1 ++ p :: l2) =
        (l1.map (fun q => { stage := s, providerId := q.id }) ++
          [{ stage := s, providerId := p.id }], some e)) := by
  refine ⟨?_, ?_, ?_⟩
  · intro env sr hooks db snap db1 e hOwn hAct hFail
    have hEq : build_handler env sr hooks db =
        { exit := ExitKind.hookError e, db := db1, events := (runBuildStages hooks).1,
          completeCalled := false, scheduleCalled := false } := by
      unfold build_handler
      rw [hOwn]
      rcases hR : runBuildStages hooks with ⟨evs, r⟩
      rw [hR] at hFail
      simp only at hFail
      subst hFail
      simp [hAct]
    obtain ⟨hm, hsha⟩ := establishOwnership_owned env ProcessAction.build db snap db1 hOwn
    refine ⟨hEq, hm, hsha, ?_⟩
    intro hrun
    refine ⟨snap, ?_, hsha, hrun⟩
    rw [hEq]
    exact hm
  · intro env hooks db snap db1 e hOwn hAct hFail
    have hEq : release_handler env hooks db =
        { exit := ExitKind.hookError e, db := db1, events := (runReleaseStages hooks).1,
          completeCalled := false, scheduleCalled := false } := by
      unfold release_handler
      rw [hOwn]
      rcases hR : runReleaseStages hooks with ⟨evs, r⟩
      rw [hR] at hFail
      simp only at hFail
      subst hFail
      simp [hAct]
    obtain ⟨hm, hsha⟩ := establishOwnership_owned env ProcessAction.release db snap db1 hOwn
    refine ⟨hEq, hm, hsha, ?_⟩
    intro hrun
    refine ⟨snap, ?_, hsha, hrun⟩
    rw [hEq]
    exact hm
  · intro s l1 p l2 e h1 hp
    induction l1 with
    | nil => simp [runBroadcast, hp]
    | cons q l1 ih =>
      have hq : q.fails = none := h1 q (by simp)
      rw [List.cons_append, runBroadcast, hq]
      rw [ih (fun x hx => h1 x (by simp [hx]))]
      simp

/-- Claim C7: once ownership of the snapshot is established, a driver
invocation whose intended action differs from the snapshot's action
aborts quietly with exit status 0 and invokes no pipeline stage at all
(no configure and nothing after it); the database is exactly as
ownership establishment left it. -/
theorem C7_action_mismatch_quiet_abort :
    (∀ (env : Env) (sr : Bool) (hooks : Hooks) (db : Db) (snap : Snapshot) (db1 : Db),
      establishOwnership env ProcessAction.build db = OwnResult.owned snap db1 →
      snap.action ≠ ProcessAction.build →
      build_handler env sr hooks db =
        { exit := ExitKind.exited 0, db := db1, events := [],
          completeCalled := false, scheduleCalled := false }) ∧
    (∀ (env : Env) (hooks : Hooks) (db : Db) (snap : Snapshot) (db1 : Db),
      establishOwnership env ProcessAction.release db = OwnResult.owned snap db1 →
      snap.action ≠ ProcessAction.release →
      release_handler env hooks db =
        { exit := ExitKind.exited 0, db := db1, events := [],
          completeCalled := false, scheduleCalled := false }) := by
  constructor
  · intro env sr hooks db snap db1 hOwn hAct
    unfold build_handler
    rw [hOwn]
    simp [hAct]
  · intro env hooks db snap db1 hOwn hAct
    unfold release_handler
    rw [hOwn]
    simp [hAct]

/-- Claim C8: while the snapshot's recorded owner pid belongs to a live
process other than the caller, a second driver invocation (build or
release) for the same `ref_sha` performs zero hook pipeline stage
invocations and exits quietly with status 0 without modifying the
database. -/
theorem C8_peer_alive_quiet_noop (env : Env) (db : Db) (snap : Snapshot)
    (h1 : env.repoExists = true) (h2 : env.repoIsBare = true)
    (h3 : env.buildsPathExists = true)
    (hget : SnapshotManager.get db env.ref_sha = some snap)
    (hpid : env.pid ≠ snap.pid)
    (halive : is_pid_alive env.kill snap.pid = Except.ok true) :
    (∀ (sr : Bool) (hooks : Hooks),
      build_handler env sr hooks db =
        { exit := ExitKind.exited 0, db := db, events := [],
          completeCalled := false, scheduleCalled := false }) ∧
    (∀ (hooks : Hooks),
      release_handler env hooks db =
        { exit := ExitKind.exited 0, db := db, events := [],
          completeCalled := false, scheduleCalled := false }) := by
  have hE : ∀ a, establishOwnership env a db = OwnResult.aborted (ExitKind.exited 0) db := by
    intro a
    unfold establishOwnership
    rw [h1, h2, h3, hget]
    simp only [Bool.true_eq_false, if_false]
    unfold ownershipCheck
    rw [halive]
    simp [hpid]
  constructor
  · intro sr hooks
    unfold build_handler
    rw [hE ProcessAction.build]
  · intro hooks
    unfold release_handler
    rw [hE ProcessAction.release]

/-- Claim C10: invoked for a `ref_sha` with no existing snapshot,
`release_handler` creates the snapshot with `action = BUILD` (not
RELEASE) and `state = RUNNING`, then — since the created snapshot's
action is not RELEASE — exits quietly with status 0 without invoking any
release pipeline stage, leaving behind a RUNNING snapshot whose recorded
pid is the invoking (and now exiting) process. -/
theorem C10_release_creates_build_snapshot_then_aborts (env : Env) (hooks : Hooks)
    (db : Db) (b : Bool)
    (h1 : env.repoExists = true) (h2 : env.repoIsBare = true)
    (h3 : env.buildsPathExists = true)
    (hget : SnapshotManager.get db env.ref_sha = none)
    (halive : is_pid_alive env.kill env.pid = Except.ok b) :
    release_handler env hooks db =
      { exit := ExitKind.exited 0,
        db := { db with snapshot := db.snapshot ++
          [newSnapshot env.ref env.ref_sha ProcessAction.build ProcessState.running
            env.now env.user env.pid] },
        events := [], completeCalled := false, scheduleCalled := false } ∧
    (newSnapshot env.ref env.ref_sha ProcessAction.build ProcessState.running
      env.now env.user env.pid).action = ProcessAction.build ∧
    (newSnapshot env.ref env.ref_sha ProcessAction.build ProcessState.running
      env.now env.user env.pid).state = ProcessState.running ∧
    (newSnapshot env.ref env.ref_sha ProcessAction.build ProcessState.running
      env.now env.user env.pid).pid = env.pid ∧
    SnapshotManager.get
      { db with snapshot := db.snapshot ++
        [newSnapshot env.ref env.ref_sha ProcessAction.build ProcessState.running
          env.now env.user env.pid] } env.ref_sha =
      some (newSnapshot env.ref env.ref_sha ProcessAction.build ProcessState.running
        env.now env.user env.pid) := by
  have hsha : hasSha db env.ref_sha = false := hasSha_false_of_get_none db env.ref_sha hget
  have hCreate : SnapshotManager.create db env.ref env.ref_sha ProcessAction.build
      ProcessState.running env.now env.user env.pid =
      (some (newSnapshot env.ref env.ref_sha ProcessAction.build ProcessState.running
        env.now env.user env.pid),
       { db with snapshot := db.snapshot ++
         [newSnapshot env.ref env.ref_sha ProcessAction.build ProcessState.running
           env.now env.user env.pid] }) := by
    simp [SnapshotManager.create, hsha]
  have hOwn : establishOwnership env ProcessAction.release db =
      OwnResult.owned
        (newSnapshot env.ref env.ref_sha ProcessAction.build ProcessState.running
          env.now env.user env.pid)
        { db with snapshot := db.snapshot ++
          [newSnapshot env.ref env.ref_sha ProcessAction.build ProcessState.running
            env.now env.user env.pid] } := by
    unfold establishOwnership
    rw [h1, h2, h3, hget]
    simp only [Bool.true_eq_false, if_false]
    rw [hCreate]
    unfold ownershipCheck
    simp only [newSnapshot]
    rw [halive]
    simp
  refine ⟨?_, rfl, rfl, rfl, ?_⟩
  · unfold release_handler
    rw [hOwn]
    simp [newSnapshot]
  · have hnone : ∀ x ∈ db.snapshot, (x.ref_sha == env.ref_sha) = false := by
      intro x hx
      have := List.find?_eq_none.mp hget x hx
      simpa using this
    show (db.snapshot ++
      [newSnapshot env.ref env.ref_sha ProcessAction.build ProcessState.running
        env.now env.user env.pid]).find? (fun r => r.ref_sha == env.ref_sha) = _
    rw [find?_append_of_none _ db.snapshot _ hnone]
    simp [newSnapshot]

/-- Witness for C4: with the sample registry whose `build` provider
raises, the handler propagates the error, leaves the table untouched and
calls neither `complete` nor `schedule_for_release`. -/
theorem C4_pipeline_failure_all_or_nothing_witness :
    build_handler envA false hooksFail dbOwn =
      { exit := ExitKind.hookError "boom", db := dbOwn,
        events := (runBuildStages hooksFail).1,
        completeCalled := false, scheduleCalled := false } :=
  (C4_pipeline_failure_all_or_nothing.1 envA false hooksFail dbOwn rowOwn dbOwn "boom"
    (by rfl) (by rfl) (by rfl)).1

/-- Witness for C7: a build invocation that finds its own RELEASE-owned
row exits quietly without any stage invocation. -/
theorem C7_action_mismatch_quiet_abort_witness :
    build_handler envA false hooksFail dbRel =
      { exit := ExitKind.exited 0, db := dbRel, events := [],
        completeCalled := false, scheduleCalled := false } :=
  C7_action_mismatch_quiet_abort.1 envA false hooksFail dbRel rowRel dbRel
    (by rfl) (by decide)

/-- Witness for C8: with the sample row owned by live pid 100 and caller
pid 7, both handlers exit quietly with the database untouched. -/
theorem C8_peer_alive_quiet_noop_witness :
    build_handler envA false hooksFail dbOne =
      { exit := ExitKind.exited 0, db := dbOne, events := [],
        completeCalled := false, scheduleCalled := false } ∧
    release_handler envA hooksFail dbOne =
      { exit := ExitKind.exited 0, db := dbOne, events := [],
        completeCalled := false, scheduleCalled := false } :=
  ⟨(C8_peer_alive_quiet_noop envA dbOne rowA rfl rfl rfl (by rfl) (by decide)
      (by rfl)).1 false hooksFail,
   (C8_peer_alive_quiet_noop envA dbOne rowA rfl rfl rfl (by rfl) (by decide)
      (by rfl)).2 hooksFail⟩

/-- Witness for C10: a release invocation on an empty store creates a
BUILD/RUNNING snapshot owned by its own pid and exits quietly. -/
theorem C10_release_creates_build_snapshot_then_aborts_witness :
    release_handler envA hooksFail emptyDb =
      { exit := ExitKind.exited 0,
        db := { emptyDb with snapshot :=
          [newSnapshot "main" "abc123" ProcessAction.build ProcessState.running 3 "alice" 7] },
        events := [], completeCalled := false, scheduleCalled := false } :=
  (C10_release_creates_build_snapshot_then_aborts envA hooksFail emptyDb true
    rfl rfl rfl (by rfl) (by rfl)).1
